import Mathlib

/-!
Verification of the Mt.Fuji particle-weather scene core: the weather
classifier, the solar clock, the terrain height function and the
per-frame particle update rules, shallowly embedded from the TypeScript
sources (`hooks/useWeather.ts`, `hooks/useSunPosition.ts`,
`components/ParticleScene.tsx`).
-/

namespace MtFuji

/-- The four weather categories produced by the classifier. -/
inductive WeatherType where
  | sunny
  | cloudy
  | rainy
  | snowy
deriving DecidableEq, Repr

/-- Embedding of `getWeatherType` from `hooks/useWeather.ts`: the chain of
range checks over the WMO weather code, in source order. -/
def getWeatherType (code : ℤ) : WeatherType :=
  if code = 0 ∨ code = 1 then .sunny
  else if code = 2 ∨ code = 3 ∨ code = 45 ∨ code = 48 then .cloudy
  else if 51 ≤ code ∧ code ≤ 67 then .rainy
  else if 71 ≤ code ∧ code ≤ 77 then .snowy
  else if 80 ≤ code ∧ code ≤ 82 then .rainy
  else if 85 ≤ code ∧ code ≤ 86 then .snowy
  else if 95 ≤ code then .rainy
  else .sunny

/-- Pool size of the precipitation population (`WeatherParticles` in
`components/ParticleScene.tsx`): 2000 for rain, 1500 for snow, 0 otherwise. -/
def particleCount (w : WeatherType) : ℕ :=
  if w = .rainy then 2000
  else if w = .snowy then 1500
  else 0

/-- Output record of `useSunPosition`: light position, directional and
ambient intensity, tint color, and the day/night flag. -/
structure SunPosition where
  position : ℝ × ℝ × ℝ
  intensity : ℝ
  color : String
  ambientIntensity : ℝ
  isNight : Prop

/-- Solar angle from `useSunPosition`: `angle = ((hours - 6) / 24) * 2π`. -/
noncomputable def sunAngle (hours : ℝ) : ℝ :=
  ((hours - 6) / 24) * (2 * Real.pi)

/-- Solar elevation from `useSunPosition`: `elevation = sin(angle)`. -/
noncomputable def elevation (hours : ℝ) : ℝ :=
  Real.sin (sunAngle hours)

/-- Embedding of the `updateSun` body of `useSunPosition` (the version with
the moon substitution): when `elevation < 0` the light is placed at the
antipodal angle `angle + π` with the fixed moonlight preset, otherwise at
the solar angle with elevation-scaled intensity and three-tier color. -/
noncomputable def updateSun (hours : ℝ) : SunPosition :=
  let angle := sunAngle hours
  if elevation hours < 0 then
    { position := (Real.cos (angle + Real.pi) * 100, Real.sin (angle + Real.pi) * 100, 0)
      intensity := 0.4
      color := "#b9c6d2"
      ambientIntensity := 0.15
      isNight := elevation hours < 0 }
  else
    { position := (Real.cos angle * 100, Real.sin angle * 100, 0)
      intensity := min (elevation hours * 1.5) 1
      color :=
        if elevation hours < 0.2 then "#ff9e22"
        else if elevation hours < 0.5 then "#ffcf8a"
        else "#ffffff"
      ambientIntensity := 0.2 + elevation hours * 0.4
      isNight := elevation hours < 0 }

/-- Embedding of `getMountainHeight` from `components/ParticleScene.tsx`:
radial cone `max(0, 15 - d·0.8)`, the caldera carve-out applied when
`d < 1.8` and the base height exceeds 13, trigonometric noise, angular
asymmetry (`atan2(z, x)` is the argument of the complex point `x + z·i`),
all clamped by a final `max(0, ·)`. -/
noncomputable def getMountainHeight (x z : ℝ) : ℝ :=
  let distance := Real.sqrt (x * x + z * z)
  let angle := Complex.arg (x + z * Complex.I)
  let baseHeight0 := max 0 (15 - distance * 0.8)
  let baseHeight :=
    if distance < 1.8 ∧ baseHeight0 > 13 then
      baseHeight0 - (1 - (1 - Real.cos ((distance / 1.8) * (Real.pi / 2)))) * 1.2
    else baseHeight0
  let noise := Real.sin (x * 2) * Real.cos (z * 2) * 0.3 + Real.sin (x * 5 + z * 3) * 0.1
  let asymmetry := Real.cos angle * 0.5
  max 0 (baseHeight + noise + asymmetry * 0.3)

/-- Drift speed of the volumetric cloud group (`VolumetricClouds` in
`components/ParticleScene.tsx`): 0.2 by default, overridden per weather. -/
def driftSpeed (w : WeatherType) : ℚ :=
  if w = .rainy then 1
  else if w = .cloudy then 0.5
  else if w = .snowy then 0.3
  else 0.2

/-- Per-frame horizontal update of the cloud group in `VolumetricClouds`:
advance `x` by the frame's drift, then wrap to -30 once `x` exceeds 30. -/
def cloudStep (x drift : ℚ) : ℚ :=
  let moved := x + drift
  if moved > 30 then -30 else moved

/-- One particle of the precipitation pool in `WeatherParticles`:
position, individual fall speed and sway phase. -/
structure PrecipParticle where
  x : ℚ
  y : ℚ
  z : ℚ
  speed : ℚ
  offset : ℚ
deriving DecidableEq, Repr

/-- Per-frame update of one precipitation particle in `WeatherParticles`:
fall by the particle's speed, and when the new height drops below -10 reset
to the top bound `y = 20` with freshly drawn `x`/`z` (passed as `rx`, `rz`). -/
def precipStep (p : PrecipParticle) (rx rz : ℚ) : PrecipParticle :=
  let yNew := p.y - p.speed
  if yNew < -10 then { p with y := 20, x := rx, z := rz }
  else { p with y := yNew }

/-- One entry of the hourly forecast list in `useWeather`. -/
structure ForecastItem where
  time : String
  temperature : ℤ
  weatherCode : ℤ
  weatherDescription : String

/-- The `WeatherData` state held by `useWeather`. -/
structure WeatherData where
  temperature : ℤ
  weatherCode : ℤ
  weatherDescription : String
  visibility : ℤ
  windSpeed : ℤ
  humidity : ℤ
  forecast : List ForecastItem
  loading : Bool
  error : Option String

/-- The `catch` branch of `fetchWeather` in `useWeather`:
`setData(prev => ({...prev, loading: false, error: message}))`. -/
def onFetchFailure (prev : WeatherData) (msg : String) : WeatherData :=
  { prev with loading := false, error := some msg }

/-- Seeded state of one lake particle in `LakeParticles`: its planar
position and its slightly varied initial water level. -/
structure LakeSeed where
  x : ℝ
  y : ℝ
  z : ℝ

/-- The transform committed for one particle on one frame. -/
structure ParticleTransform where
  x : ℝ
  y : ℝ
  z : ℝ
  scale : ℝ

/-- The two-sinusoid wave offset computed each frame in `LakeParticles`. -/
noncomputable def lakeWaveY (time px pz : ℝ) : ℝ :=
  Real.sin (time * 0.8 + px * 0.5 + pz * 0.3) * 0.08 +
    Real.sin (time * 0.5 + px * 0.3) * 0.05

/-- Per-frame transform of one lake particle in `LakeParticles`: position
`(px, initialY + waveY, pz)` read from the immutable seed arrays, uniform
scale 0.1; the seed itself is never written by the frame loop. -/
noncomputable def lakeFrame (time : ℝ) (seed : LakeSeed) : ParticleTransform :=
  { x := seed.x
    y := seed.y + lakeWaveY time seed.x seed.z
    z := seed.z
    scale := 0.1 }

end MtFuji

namespace MtFuji

/-- Claim C1, counterexample: code 9999 falls into the classifier's final
unbounded thunderstorm branch (`code >= 95`), so it is classified `rainy`,
not the claimed default `sunny`. -/
theorem getWeatherType_9999_not_sunny : getWeatherType 9999 ≠ WeatherType.sunny := by
  decide

/-- Claim C1 (amended): every integer code outside the handled ranges —
not 0 or 1, not 2/3/45/48, not in [51,67], [71,77], [80,82] or [85,86],
and below 95 — defaults to `sunny`; code 9999 lies inside the unbounded
`code ≥ 95` range and is classified `rainy`. -/
theorem getWeatherType_default_sunny (code : ℤ)
    (h01 : ¬(code = 0 ∨ code = 1))
    (hcl : ¬(code = 2 ∨ code = 3 ∨ code = 45 ∨ code = 48))
    (hrain : ¬(51 ≤ code ∧ code ≤ 67))
    (hsnow : ¬(71 ≤ code ∧ code ≤ 77))
    (hshower : ¬(80 ≤ code ∧ code ≤ 82))
    (hsnow2 : ¬(85 ≤ code ∧ code ≤ 86))
    (hthunder : ¬(95 ≤ code)) :
    getWeatherType code = WeatherType.sunny ∧ getWeatherType 9999 = WeatherType.rainy := by
  unfold getWeatherType
  rw [if_neg h01, if_neg hcl, if_neg hrain, if_neg hsnow, if_neg hshower,
    if_neg hsnow2, if_neg hthunder]
  exact ⟨rfl, by decide⟩

/-- Claim C1, witness: code 50 satisfies every side condition and is
classified `sunny`. -/
theorem getWeatherType_default_sunny_witness :
    getWeatherType 50 = WeatherType.sunny ∧ getWeatherType 9999 = WeatherType.rainy :=
  getWeatherType_default_sunny 50 (by decide) (by decide) (by decide) (by decide)
    (by decide) (by decide) (by decide)

/-- At hour 0 (midnight) the solar angle is `-π/2`, so the elevation is -1. -/
theorem elevation_zero_hour : elevation 0 = -1 := by
  unfold elevation sunAngle
  have h1 : ((0 : ℝ) - 6) / 24 * (2 * Real.pi) = -(Real.pi / 2) := by ring
  rw [h1, Real.sin_neg, Real.sin_pi_div_two]

/-- Claim C2: whenever the solar elevation `sin(angle)` is negative,
`updateSun` places the light at the antipodal moon position
`(cos(angle+π)·100, sin(angle+π)·100, 0)` and uses the fixed nighttime
preset: intensity 0.4, ambient intensity 0.15, tint color `#b9c6d2`. -/
theorem updateSun_night_moon (h : ℝ) (hneg : elevation h < 0) :
    (updateSun h).position =
      (Real.cos (sunAngle h + Real.pi) * 100, Real.sin (sunAngle h + Real.pi) * 100, 0) ∧
    (updateSun h).intensity = 0.4 ∧
    (updateSun h).ambientIntensity = 0.15 ∧
    (updateSun h).color = "#b9c6d2" := by
  simp only [updateSun]
  rw [if_pos hneg]
  exact ⟨rfl, rfl, rfl, rfl⟩

/-- Claim C2, witness: at hour 0 the elevation is -1 < 0 and the moon
substitution with the night preset is applied. -/
theorem updateSun_night_moon_witness :
    elevation 0 < 0 ∧
    ((updateSun 0).position =
        (Real.cos (sunAngle 0 + Real.pi) * 100, Real.sin (sunAngle 0 + Real.pi) * 100, 0) ∧
      (updateSun 0).intensity = 0.4 ∧
      (updateSun 0).ambientIntensity = 0.15 ∧
      (updateSun 0).color = "#b9c6d2") :=
  have hneg : elevation 0 < 0 := by rw [elevation_zero_hour]; norm_num
  ⟨hneg, updateSun_night_moon 0 hneg⟩

/-- Claim C6: the solar clock maps hour `h` to angle `((h-6)/24)·2π`, sets
`elevation = sin(angle)` and `isNight ⇔ elevation < 0`; at hour 6 the
elevation is 0 and the light sits at the eastern extreme `(100, 0, 0)`,
and at hour 12 the elevation is 1 (zenith). -/
theorem solar_clock_invariants :
    (∀ h : ℝ, sunAngle h = ((h - 6) / 24) * (2 * Real.pi)) ∧
    (∀ h : ℝ, elevation h = Real.sin (sunAngle h)) ∧
    (∀ h : ℝ, ((updateSun h).isNight ↔ elevation h < 0)) ∧
    elevation 6 = 0 ∧
    (updateSun 6).position = (100, 0, 0) ∧
    elevation 12 = 1 := by
  have hang6 : sunAngle 6 = 0 := by unfold sunAngle; ring
  have helev6 : elevation 6 = 0 := by rw [elevation, hang6, Real.sin_zero]
  refine ⟨fun _ => rfl, fun _ => rfl, ?_, helev6, ?_, ?_⟩
  · intro h
    simp only [updateSun]
    split_ifs <;> exact Iff.rfl
  · have hnot : ¬ elevation 6 < 0 := by rw [helev6]; norm_num
    simp only [updateSun]
    rw [if_neg hnot, hang6]
    norm_num
  · have hang12 : sunAngle 12 = Real.pi / 2 := by unfold sunAngle; ring
    rw [elevation, hang12, Real.sin_pi_div_two]

/-- Claim C7: the classifier is a pure function (two calls at the same code
agree) and maps 0 to `sunny`, 3 to `cloudy`, 61 to `rainy`, 71 to `snowy`. -/
theorem getWeatherType_stable_values :
    (∀ code : ℤ, getWeatherType code = getWeatherType code) ∧
    getWeatherType 0 = WeatherType.sunny ∧
    getWeatherType 3 = WeatherType.cloudy ∧
    getWeatherType 61 = WeatherType.rainy ∧
    getWeatherType 71 = WeatherType.snowy :=
  ⟨fun _ => rfl, by decide, by decide, by decide, by decide⟩

/-- Claim C8: the precipitation pool is strictly larger for `rainy` than for
`sunny`, and it is non-empty exactly for `rainy` and `snowy` (size zero for
`sunny` and `cloudy`). -/
theorem particleCount_weather :
    particleCount .rainy > particleCount .sunny ∧
    (∀ w : WeatherType, particleCount w ≠ 0 ↔ (w = .rainy ∨ w = .snowy)) ∧
    particleCount .sunny = 0 ∧ particleCount .cloudy = 0 := by
  refine ⟨by decide, ?_, by decide, by decide⟩
  intro w
  cases w <;> decide

/-- Claim C5: the terrain height is non-negative at every input, by the
final `max(0, ·)` clamp of `getMountainHeight`. -/
theorem getMountainHeight_nonneg (x z : ℝ) : 0 ≤ getMountainHeight x z := by
  unfold getMountainHeight
  exact le_max_left 0 _

/-- Claim C3: after the per-frame cloud update the horizontal position
never exceeds the wrap bound 30 (so in particular never by more than one
frame's drift), and whenever the drifted position exceeds the bound the
update wraps it to the opposite edge -30, for every weather category and
frame delta. -/
theorem cloudStep_wrap_bound (w : WeatherType) (delta x : ℚ) :
    cloudStep x (driftSpeed w * delta) ≤ 30 ∧
    (x + driftSpeed w * delta > 30 → cloudStep x (driftSpeed w * delta) = -30) := by
  simp only [cloudStep]
  constructor
  · split_ifs with hgt
    · norm_num
    · exact le_of_not_lt hgt
  · intro hx
    rw [if_pos hx]

/-- Claim C3, witness: under rainy drift 1 and delta 1, a cloud at x = 30
drifts past the bound and is wrapped to -30, staying within the bound. -/
theorem cloudStep_wrap_bound_witness :
    cloudStep 30 (driftSpeed .rainy * 1) ≤ 30 ∧ cloudStep 30 (driftSpeed .rainy * 1) = -30 :=
  ⟨(cloudStep_wrap_bound .rainy 1 30).1,
    (cloudStep_wrap_bound .rainy 1 30).2 (by norm_num [driftSpeed])⟩

/-- Claim C4: after one precipitation update step the particle's height is
never below the lower bound -10, and any particle whose height falls below
-10 during the step is reset within that same step to the top bound
`y = 20` with the freshly drawn planar coordinates. -/
theorem precipStep_lower_bound (p : PrecipParticle) (rx rz : ℚ) :
    -10 ≤ (precipStep p rx rz).y ∧
    (p.y - p.speed < -10 → precipStep p rx rz = { p with y := 20, x := rx, z := rz }) := by
  simp only [precipStep]
  constructor
  · split_ifs with hy
    · norm_num
    · exact le_of_not_lt hy
  · intro hy
    rw [if_pos hy]

/-- Claim C4, witness: a particle at height -9 with fall speed 2 crosses the
bound during the step and is reset to `(5, 20, 7)` within that same step. -/
theorem precipStep_lower_bound_witness :
    -10 ≤ (precipStep ⟨0, -9, 0, 2, 0⟩ 5 7).y ∧
    precipStep ⟨0, -9, 0, 2, 0⟩ 5 7 = ⟨5, 20, 7, 2, 0⟩ :=
  ⟨(precipStep_lower_bound ⟨0, -9, 0, 2, 0⟩ 5 7).1,
    (precipStep_lower_bound ⟨0, -9, 0, 2, 0⟩ 5 7).2 (by norm_num)⟩

/-- Claim C9: on fetch failure the state update is a total function that
keeps every previously held weather field unchanged, sets `loading` to
false, and records the failure only as a non-null `error` value. -/
theorem onFetchFailure_preserves (prev : WeatherData) (msg : String) :
    (onFetchFailure prev msg).temperature = prev.temperature ∧
    (onFetchFailure prev msg).weatherCode = prev.weatherCode ∧
    (onFetchFailure prev msg).weatherDescription = prev.weatherDescription ∧
    (onFetchFailure prev msg).visibility = prev.visibility ∧
    (onFetchFailure prev msg).windSpeed = prev.windSpeed ∧
    (onFetchFailure prev msg).humidity = prev.humidity ∧
    (onFetchFailure prev msg).forecast = prev.forecast ∧
    (onFetchFailure prev msg).loading = false ∧
    (onFetchFailure prev msg).error = some msg ∧
    (onFetchFailure prev msg).error ≠ none :=
  ⟨rfl, rfl, rfl, rfl, rfl, rfl, rfl, rfl, rfl, Option.some_ne_none msg⟩

/-- Claim C10: every frame of the lake update leaves the particle's planar
coordinates and its 0.1 scale exactly at their seeded values and changes
only the vertical coordinate, by the seeded level plus the two-sinusoid
wave offset. -/
theorem lakeFrame_planar_fixed (time : ℝ) (seed : LakeSeed) :
    (lakeFrame time seed).x = seed.x ∧
    (lakeFrame time seed).z = seed.z ∧
    (lakeFrame time seed).scale = 0.1 ∧
    (lakeFrame time seed).y = seed.y + lakeWaveY time seed.x seed.z :=
  ⟨rfl, rfl, rfl, rfl⟩

end MtFuji
